import Mathlib

/-!
Shallow embedding of the PointCloudGenerator sources (src/math.js,
src/SurfaceGenerator.js, src/Exporter.js, src/WebGPURenderer.js) over exact
rational arithmetic.  JavaScript numbers are modelled as ℚ; `Math.floor` is
`Int.floor`, `Math.round` is `fun x => ⌊x + 1/2⌋` (JS rounds half toward +∞),
and out-of-bounds array accesses (which throw a TypeError in JS when a field
of `undefined` is read) are modelled by `Option`, `none` standing for the
thrown error.  `Math.cos`, `Math.sin`, `Math.tan` and `Math.PI` are taken as
abstract parameters, so every theorem below holds for an arbitrary
interpretation of the trigonometric primitives.
-/

/-- JS array read `l[i]` followed by a field access: `undefined` (out of
bounds, including a negative index) is modelled as `none`. -/
def jsIndex {α : Type} (l : List α) (i : ℤ) : Option α :=
  if i < 0 then none else l[i.toNat]?

/-- JS `Math.round`: rounds half toward positive infinity. -/
def jsRound (x : ℚ) : ℤ := ⌊x + 1/2⌋

/-- JS numeric `a || b`: returns `b` when `a` is falsy (0; NaN is not
representable in ℚ). -/
def jsOr (a b : ℚ) : ℚ := if a = 0 then b else a

/-! ## math.js -/

/-- math.js `cubicBezier(t, p0, p1, p2, p3)`. -/
def cubicBezier (t p0 p1 p2 p3 : ℚ) : ℚ :=
  let mt := 1 - t
  mt * mt * mt * p0 +
    3 * mt * mt * t * p1 +
    3 * mt * t * t * p2 +
    t * t * t * p3

/-- Handle offset record `{dx, dy}` of a curve point. -/
structure Handle where
  dx : ℚ
  dy : ℚ
deriving DecidableEq

/-- Curve point `{x, y, cp1:{dx,dy}, cp2:{dx,dy}}` as produced by the curve
editor and consumed by math.js and SurfaceGenerator.js. -/
structure CurvePoint where
  x : ℚ
  y : ℚ
  cp1 : Handle
  cp2 : Handle
deriving DecidableEq

/-- The `axis` argument of `sampleBezierSpline`, which the source restricts
to the strings x and y. -/
inductive Axis where
  | x
  | y
deriving DecidableEq

/-- Dynamic field access `p[axis]` for an x or y axis argument. -/
def axisVal (p : CurvePoint) : Axis → ℚ
  | Axis.x => p.x
  | Axis.y => p.y

/-- math.js `sampleBezierSpline(t, points, axis)`.  `none` models the
TypeError thrown on an out-of-bounds point access (negative segment index,
possible when `t < 0`). -/
def sampleBezierSpline (t : ℚ) (points : List CurvePoint) (axis : Axis) :
    Option ℚ :=
  if points.length < 2 then
    some (match points[0]? with
          | some p => axisVal p axis
          | none => 0)
  else
    let n : ℕ := points.length - 1
    let rawT : ℚ := t * n
    let idx : ℤ := ⌊rawT⌋
    let weight : ℚ := rawT - idx
    if (n : ℤ) ≤ idx then do
      let p ← points[n]?
      some (axisVal p axis)
    else do
      let pA ← jsIndex points idx
      let pB ← jsIndex points (idx + 1)
      let v0 := axisVal pA axis
      let v1 := axisVal pA axis +
        (match axis with | Axis.x => pA.cp2.dx | Axis.y => pA.cp2.dy)
      let v2 := axisVal pB axis +
        (match axis with | Axis.x => pB.cp1.dx | Axis.y => pB.cp1.dy)
      let v3 := axisVal pB axis
      some (cubicBezier weight v0 v1 v2 v3)

/-! ### Hex colors (math.js interpolateColor)

`parseInt(s, 16)` on a valid two-hex-digit substring is
`16 * hexVal c + hexVal d`; `(n).toString(16).padStart(6, '0')` on
`n < 16^6` is the fixed-width six-digit lowercase hex expansion. -/

/-- Value of one hex digit as accepted by JS `parseInt(·, 16)` (both cases);
other characters are junk (JS would give NaN, which no valid color hits). -/
def hexVal (c : Char) : ℕ :=
  if ('0' ≤ c ∧ c ≤ '9') then c.toNat - ('0').toNat
  else if (('a') ≤ c ∧ c ≤ ('f')) then c.toNat - ('a').toNat + 10
  else if (('A') ≤ c ∧ c ≤ ('F')) then c.toNat - ('A').toNat + 10
  else 0

/-- Lowercase hex digit character, as produced by JS `(n).toString(16)`. -/
def hexChar (n : ℕ) : Char :=
  if n < 10 then Char.ofNat (('0').toNat + n)
  else Char.ofNat (('a').toNat + (n - 10))

/-- `(n).toString(16).padStart(6, '0')` for `n < 16^6`, as a list of six
lowercase hex digit characters. -/
def toHex6 (n : ℕ) : List Char :=
  [hexChar (n / 1048576 % 16), hexChar (n / 65536 % 16),
   hexChar (n / 4096 % 16), hexChar (n / 256 % 16),
   hexChar (n / 16 % 16), hexChar (n % 16)]

/-- `parseInt(s.substring(i, i+2), 16)` of a hex color string, reading the
two characters at positions `i` and `i+1`. -/
def parsePair (s : String) (i : ℕ) : ℕ :=
  16 * hexVal (s.data.getD i ('0')) + hexVal (s.data.getD (i + 1) ('0'))

/-- The three decoded channels `(r, g, b)` of a `#rrggbb` color string. -/
def decodeColor (s : String) : ℕ × ℕ × ℕ :=
  (parsePair s 1, parsePair s 3, parsePair s 5)

/-- math.js `interpolateColor(color1, color2, t)`.  The bit-packing
`r << 16 | g << 8 | b` is modelled as `r * 65536 + g * 256 + b`, which is
what the JS expression computes whenever every rounded channel lies in
`[0, 255]` (always the case for valid colors and `t ∈ [0, 1]`). -/
def interpolateColor (color1 color2 : String) (t : ℚ) : String :=
  let r1 := parsePair color1 1
  let g1 := parsePair color1 3
  let b1 := parsePair color1 5
  let r2 := parsePair color2 1
  let g2 := parsePair color2 3
  let b2 := parsePair color2 5
  let r := jsRound ((r1 : ℚ) + ((r2 : ℚ) - (r1 : ℚ)) * t)
  let g := jsRound ((g1 : ℚ) + ((g2 : ℚ) - (g1 : ℚ)) * t)
  let b := jsRound ((b1 : ℚ) + ((b2 : ℚ) - (b1 : ℚ)) * t)
  String.mk (('#') :: toHex6 (r * 65536 + g * 256 + b).toNat)

/-- The sixteen characters that may appear in a lowercase hex color body. -/
def lowerHexDigits : List Char :=
  [('0'), ('1'), ('2'), ('3'), ('4'), ('5'), ('6'), ('7'),
   ('8'), ('9'), ('a'), ('b'), ('c'), ('d'), ('e'), ('f')]

/-- A valid lowercase 6-digit hex color: `#` followed by six lowercase hex
digit characters. -/
def IsLowerHexColor (s : String) : Prop :=
  ∃ c1 c2 c3 c4 c5 c6 : Char,
    s.data = [('#'), c1, c2, c3, c4, c5, c6] ∧
    c1 ∈ lowerHexDigits ∧ c2 ∈ lowerHexDigits ∧ c3 ∈ lowerHexDigits ∧
    c4 ∈ lowerHexDigits ∧ c5 ∈ lowerHexDigits ∧ c6 ∈ lowerHexDigits

/-! ## SurfaceGenerator.js

`generate(verticalCurve, horizontalCurve, params)` reads the global
`window.geometryMode` (modelled as the explicit `mode` argument) and calls
`Math.random()` three times per point when `noise > 0` (modelled by the
stream `rand`, call `k` of the run returning `rand k`).  `Math.cos/sin` and
`Math.PI` are the abstract parameters `cos`, `sin`, `pi`.  A `none` result
models the TypeError thrown when a curve point access such as
`verticalCurve[3].x` hits `undefined`. -/

/-- The `params` record destructured at the top of `generate`.  In the
application the `gridWidth`/`gridDepth` keys are absent and default to 400,
which callers of this model pass explicitly. -/
structure SurfaceParams where
  density : ℕ
  height : ℚ
  color : String
  color2 : String
  colorMode : String
  noise : ℚ
  gridWidth : ℚ
  gridDepth : ℚ
deriving DecidableEq

/-- A generated point `{x, y, z, color}`. -/
structure GenPoint where
  x : ℚ
  y : ℚ
  z : ℚ
  color : String
deriving DecidableEq

/-- Fail-fast traversal of a list by an `Option`-valued function: the JS
loop body either produces a value for every index or throws at the first
faulting one. -/
def optionMapList {α β : Type} (f : α → Option β) : List α → Option (List β)
  | [] => some []
  | a :: l => do
      let b ← f a
      let bs ← optionMapList f l
      some (b :: bs)

/-- Body of the inner `j` loop of `generate`: mode dispatch, noise jitter,
color selection. -/
def genPointAt (mode : String) (cos sin : ℚ → ℚ) (pi : ℚ) (rand : ℕ → ℚ)
    (horizontalCurve : List CurvePoint) (params : SurfaceParams)
    (steps : ℕ) (vRadius vHeight yRaw : ℚ) (i j : ℕ) : Option GenPoint := do
  let u : ℚ := (j : ℚ) / (steps : ℚ)
  let xyz ←
    if mode = ("revolution") then
      let angle := u * pi * 2
      let rBase := (params.gridWidth / 2) * vRadius
      some (cos angle * rBase, -yRaw, sin angle * rBase)
    else if mode = ("sheet") then do
      let t : ℚ := (i : ℚ) / (steps : ℚ)
      let h0 ← horizontalCurve[0]?
      let h1 ← horizontalCurve[1]?
      let h2 ← horizontalCurve[2]?
      let h3 ← horizontalCurve[3]?
      let finalX := (u - 0.5) * params.gridWidth
      let finalZ := (t - 0.5) * params.gridDepth
      let hHeight := cubicBezier u h0.y h1.y h2.y h3.y
      let combinedY := (vHeight + hHeight) * params.height * (params.gridWidth / 2)
      some (finalX, -combinedY, finalZ)
    else do
      let h0 ← horizontalCurve[0]?
      let h1 ← horizontalCurve[1]?
      let h2 ← horizontalCurve[2]?
      let h3 ← horizontalCurve[3]?
      let rawX := cubicBezier u h0.x h1.x h2.x h3.x
      let rawZ := cubicBezier u h0.y h1.y h2.y h3.y
      let baseX := (rawX - 0.5) * params.gridWidth
      let baseZ := (rawZ - 0.5) * params.gridDepth
      some (baseX * vRadius, -yRaw, baseZ * vRadius)
  let k := 3 * (i * (steps + 1) + j)
  let jittered :=
    if params.noise > 0 then
      let jitter := params.noise * 20
      (xyz.1 + (rand k - 0.5) * jitter,
       xyz.2.1 + (rand (k + 1) - 0.5) * jitter,
       xyz.2.2 + (rand (k + 2) - 0.5) * jitter)
    else xyz
  let finalColor :=
    if params.colorMode = ("height") then
      interpolateColor params.color params.color2 vHeight
    else if params.colorMode = ("depth") then
      let factor := max 0 (min 1 ((jittered.2.2 + params.gridDepth / 2) / params.gridDepth))
      interpolateColor params.color params.color2 factor
    else params.color
  some (GenPoint.mk jittered.1 jittered.2.1 jittered.2.2 finalColor)

/-- Body of the outer `i` loop of `generate`: vertical-curve sampling (which
reads `verticalCurve[0].x` through `verticalCurve[3].y`), then the inner
loop. -/
def genRow (mode : String) (cos sin : ℚ → ℚ) (pi : ℚ) (rand : ℕ → ℚ)
    (verticalCurve horizontalCurve : List CurvePoint)
    (params : SurfaceParams) (steps : ℕ) (i : ℕ) :
    Option (List GenPoint) := do
  let t : ℚ := (i : ℚ) / (steps : ℚ)
  let v0 ← verticalCurve[0]?
  let v1 ← verticalCurve[1]?
  let v2 ← verticalCurve[2]?
  let v3 ← verticalCurve[3]?
  let vRadius := cubicBezier t v0.x v1.x v2.x v3.x
  let vHeight := cubicBezier t v0.y v1.y v2.y v3.y
  let yRaw := vHeight * params.height * 400
  optionMapList
    (genPointAt mode cos sin pi rand horizontalCurve params steps vRadius vHeight yRaw i)
    (List.range (steps + 1))

/-- SurfaceGenerator.js `generate`: a `(density+1) × (density+1)` grid of
points, outer loop over the vertical parameter, inner over the horizontal
one. -/
def generate (mode : String) (cos sin : ℚ → ℚ) (pi : ℚ) (rand : ℕ → ℚ)
    (verticalCurve horizontalCurve : List CurvePoint)
    (params : SurfaceParams) : Option (List GenPoint) := do
  let steps := params.density
  let rows ← optionMapList
    (genRow mode cos sin pi rand verticalCurve horizontalCurve params steps)
    (List.range (steps + 1))
  some rows.flatten

/-! ## Matrix code: Exporter.js and WebGPURenderer.js

Both files carry their own copy of the same column-major 4×4 matrix helpers;
they are embedded twice, once per file, exactly as duplicated in the source.
A matrix is a function of (column, row); flat index `c*4 + r` of the source
`Float32Array` is entry `(c, r)` here. -/

/-- Column-major 4×4 rational matrix: argument order is (column, row). -/
abbrev Mat4 : Type := Fin 4 → Fin 4 → ℚ

/-- A 4-component vector. -/
abbrev Vec4 : Type := Fin 4 → ℚ

namespace Exporter

variable (cos sin tan : ℚ → ℚ) (pi : ℚ)

/-- Exporter.js `mat4Multiply(a, b)`: `out[j*4+i] = Σₖ a[k*4+i] * b[j*4+k]`. -/
def mat4Multiply (a b : Mat4) : Mat4 := fun j i =>
  a 0 i * b j 0 + a 1 i * b j 1 + a 2 i * b j 2 + a 3 i * b j 3

/-- Exporter.js `mat4RotateY(angle)`. -/
def mat4RotateY (angle : ℚ) : Mat4 :=
  let c := cos angle
  let s := sin angle
  ![![c, 0, -s, 0],
    ![0, 1, 0, 0],
    ![s, 0, c, 0],
    ![0, 0, 0, 1]]

/-- Exporter.js `mat4RotateX(angle)`. -/
def mat4RotateX (angle : ℚ) : Mat4 :=
  let c := cos angle
  let s := sin angle
  ![![1, 0, 0, 0],
    ![0, c, s, 0],
    ![0, -s, c, 0],
    ![0, 0, 0, 1]]

/-- Exporter.js `mat4Translate(x, y, z)`. -/
def mat4Translate (x y z : ℚ) : Mat4 :=
  ![![1, 0, 0, 0],
    ![0, 1, 0, 0],
    ![0, 0, 1, 0],
    ![x, y, z, 1]]

/-- Exporter.js `mat4Perspective(fov, aspect, near, far)` (Y negated to
match the WebGPU renderer). -/
def mat4Perspective (fov aspect near far : ℚ) : Mat4 :=
  let f := 1.0 / tan (fov / 2)
  ![![f / aspect, 0, 0, 0],
    ![0, -f, 0, 0],
    ![0, 0, far / (near - far), -1],
    ![0, 0, (far * near) / (near - far), 0]]

/-- Exporter.js `vec4TransformMat4(v, m)` (column-major). -/
def vec4TransformMat4 (v : Vec4) (m : Mat4) : Vec4 :=
  ![m 0 0 * v 0 + m 1 0 * v 1 + m 2 0 * v 2 + m 3 0 * v 3,
    m 0 1 * v 0 + m 1 1 * v 1 + m 2 1 * v 2 + m 3 1 * v 3,
    m 0 2 * v 0 + m 1 2 * v 1 + m 2 2 * v 2 + m 3 2 * v 3,
    m 0 3 * v 0 + m 1 3 * v 1 + m 2 3 * v 2 + m 3 3 * v 3]

/-- The MVP matrix built at the top of `Exporter.toSVG` (steps 1 of the
source): `Projection * (View * (RotX * RotY))` with
`View = Translate(offsetX, offsetY, -1000/zoom)` and a 60° perspective with
near 1, far 5000.  The `isNaN` guards on the offsets are identities over ℚ. -/
def toSVGmvp (angleX angleY zoom offsetX offsetY width height : ℚ) : Mat4 :=
  let aspect := width / height
  let rotY := mat4RotateY cos sin angleY
  let rotX := mat4RotateX cos sin angleX
  let modelMat := mat4Multiply rotX rotY
  let offX := offsetX
  let offY := offsetY
  let dist := 1000.0 / zoom
  let viewMat := mat4Translate offX offY (-dist)
  let fovRad := (60 * pi) / 180
  let projMat := mat4Perspective tan fovRad aspect 1.0 5000.0
  let mvMat := mat4Multiply viewMat modelMat
  mat4Multiply projMat mvMat

end Exporter

namespace WebGPURenderer

variable (cos sin tan : ℚ → ℚ) (pi : ℚ)

/-- WebGPURenderer.js `mat4Multiply(a, b)` (same loop as Exporter.js). -/
def mat4Multiply (a b : Mat4) : Mat4 := fun j i =>
  a 0 i * b j 0 + a 1 i * b j 1 + a 2 i * b j 2 + a 3 i * b j 3

/-- WebGPURenderer.js `mat4RotateY(angle)`. -/
def mat4RotateY (angle : ℚ) : Mat4 :=
  let c := cos angle
  let s := sin angle
  ![![c, 0, -s, 0],
    ![0, 1, 0, 0],
    ![s, 0, c, 0],
    ![0, 0, 0, 1]]

/-- WebGPURenderer.js `mat4RotateX(angle)`. -/
def mat4RotateX (angle : ℚ) : Mat4 :=
  let c := cos angle
  let s := sin angle
  ![![1, 0, 0, 0],
    ![0, c, s, 0],
    ![0, -s, c, 0],
    ![0, 0, 0, 1]]

/-- WebGPURenderer.js `mat4Translate(x, y, z)`. -/
def mat4Translate (x y z : ℚ) : Mat4 :=
  ![![1, 0, 0, 0],
    ![0, 1, 0, 0],
    ![0, 0, 1, 0],
    ![x, y, z, 1]]

/-- WebGPURenderer.js `mat4Perspective(fov, aspect, near, far)` ([0,1] Z
clip, Y inverted). -/
def mat4Perspective (fov aspect near far : ℚ) : Mat4 :=
  let f := 1.0 / tan (fov / 2)
  ![![f / aspect, 0, 0, 0],
    ![0, -f, 0, 0],
    ![0, 0, far / (near - far), -1],
    ![0, 0, (far * near) / (near - far), 0]]

/-- The zoom safety check of `updateUniforms`:
`if (isNaN(this.zoom) || this.zoom === 0) this.zoom = 1.0` (over ℚ only the
zero test can fire). -/
def resolveZoom (zoom : ℚ) : ℚ := if zoom = 0 then 1.0 else zoom

/-- The wheel-zoom handler of `setupEvents` (and the pinch handler):
`this.zoom = Math.max(0.1, Math.min(20, this.zoom * delta))`. -/
def wheelZoom (zoom delta : ℚ) : ℚ := max 0.1 (min 20 (zoom * delta))

/-- The MVP matrix built by `WebGPURenderer.updateUniforms` and written to
the uniform buffer: aspect is `(width/height) || 1.0`, the NaN guards on
angles and offsets are identities over ℚ, and the zoom guard is
`resolveZoom`. -/
def updateUniformsMVP (angleX angleY zoom offsetX offsetY width height : ℚ) :
    Mat4 :=
  let aspect := jsOr (width / height) 1.0
  let zoomR := resolveZoom zoom
  let rotY := mat4RotateY cos sin angleY
  let rotX := mat4RotateX cos sin angleX
  let modelMat := mat4Multiply rotX rotY
  let dist := 1000.0 / zoomR
  let viewMat := mat4Translate offsetX offsetY (-dist)
  let fovRad := (60 * pi) / 180
  let projMat := mat4Perspective tan fovRad aspect 1.0 5000.0
  let mvMat := mat4Multiply viewMat modelMat
  mat4Multiply projMat mvMat

end WebGPURenderer

/-! ## Exporter.toSVG projection, sort and emission -/

/-- One entry of the `transformed` array of `Exporter.toSVG`. -/
structure TransformedPt where
  x : ℚ
  y : ℚ
  r : ℚ
  zDepth : ℚ
  color : String
deriving DecidableEq

namespace Exporter

variable (cos sin tan : ℚ → ℚ) (pi : ℚ)

/-- The `transformed` array of `Exporter.toSVG`: each input point is pushed
through the MVP matrix; a zero clip W (`continue`) and a post-divide depth
outside `[0, 1]` (`continue`) drop the point. -/
def toSVGTransformed (points : List GenPoint)
    (angleX angleY zoom offsetX offsetY width height radius : ℚ) :
    List TransformedPt :=
  let mvpMat := toSVGmvp cos sin tan pi angleX angleY zoom offsetX offsetY width height
  points.filterMap fun p =>
    let v : Vec4 := ![p.x, p.y, p.z, 1.0]
    let out := vec4TransformMat4 v mvpMat
    if out 3 = 0 then none
    else
      let ndcx := out 0 / out 3
      let ndcy := out 1 / out 3
      let ndcz := out 2 / out 3
      if ndcz < 0 ∨ ndcz > 1 then none
      else
        let screenX := (ndcx * 0.5 + 0.5) * width
        let screenY := ((-ndcy) * 0.5 + 0.5) * height
        let scale := 1000.0 / out 3
        some (TransformedPt.mk screenX screenY (radius * scale) ndcz p.color)

/-- `transformed.sort((a, b) => b.zDepth - a.zDepth)`: a comparator-based
sort placing `a` before `b` when `b.zDepth - a.zDepth ≤ 0`, i.e. descending
depth (JS Array.prototype.sort is stable; merge sort realizes it). -/
def toSVGSorted (points : List GenPoint)
    (angleX angleY zoom offsetX offsetY width height radius : ℚ) :
    List TransformedPt :=
  (toSVGTransformed cos sin tan pi points angleX angleY zoom offsetX offsetY
      width height radius).mergeSort
    (fun a b => decide (b.zDepth ≤ a.zDepth))

/-- The sequence of `transformed` entries that yield a `<circle>` element,
in emission order: the emission loop skips entries with `p.r < 0.1`. -/
def toSVGEmitted (points : List GenPoint)
    (angleX angleY zoom offsetX offsetY width height radius : ℚ) :
    List TransformedPt :=
  (toSVGSorted cos sin tan pi points angleX angleY zoom offsetX offsetY
      width height radius).filter
    (fun p => !(decide (p.r < 0.1)))

end Exporter

/-! ## Closed forms of the generator loop body

What `generate` actually computes per grid cell, read off the source: a
single `cubicBezier` over the **anchor** coordinates of the first four
points of each curve.  Handle offsets (`cp1`, `cp2`) and points beyond the
fourth never occur, and `sampleBezierSpline` is not called. -/

/-- Sweep-mode (default branch) point of `generate` at grid cell `(i, j)`. -/
def sweepPointFormula (rand : ℕ → ℚ) (params : SurfaceParams)
    (v0 v1 v2 v3 h0 h1 h2 h3 : CurvePoint) (i j : ℕ) : GenPoint :=
  let steps := params.density
  let t : ℚ := (i : ℚ) / (steps : ℚ)
  let u : ℚ := (j : ℚ) / (steps : ℚ)
  let vRadius := cubicBezier t v0.x v1.x v2.x v3.x
  let vHeight := cubicBezier t v0.y v1.y v2.y v3.y
  let yRaw := vHeight * params.height * 400
  let rawX := cubicBezier u h0.x h1.x h2.x h3.x
  let rawZ := cubicBezier u h0.y h1.y h2.y h3.y
  let xyz : ℚ × ℚ × ℚ :=
    ((rawX - 0.5) * params.gridWidth * vRadius, -yRaw,
     (rawZ - 0.5) * params.gridDepth * vRadius)
  let k := 3 * (i * (steps + 1) + j)
  let jittered :=
    if params.noise > 0 then
      let jitter := params.noise * 20
      (xyz.1 + (rand k - 0.5) * jitter,
       xyz.2.1 + (rand (k + 1) - 0.5) * jitter,
       xyz.2.2 + (rand (k + 2) - 0.5) * jitter)
    else xyz
  let finalColor :=
    if params.colorMode = ("height") then
      interpolateColor params.color params.color2 vHeight
    else if params.colorMode = ("depth") then
      let factor := max 0 (min 1 ((jittered.2.2 + params.gridDepth / 2) / params.gridDepth))
      interpolateColor params.color params.color2 factor
    else params.color
  GenPoint.mk jittered.1 jittered.2.1 jittered.2.2 finalColor

/-- Revolution-mode point of `generate` at grid cell `(i, j)`; the
horizontal curve is never read. -/
def revolutionPointFormula (cos sin : ℚ → ℚ) (pi : ℚ) (rand : ℕ → ℚ)
    (params : SurfaceParams) (v0 v1 v2 v3 : CurvePoint) (i j : ℕ) :
    GenPoint :=
  let steps := params.density
  let t : ℚ := (i : ℚ) / (steps : ℚ)
  let u : ℚ := (j : ℚ) / (steps : ℚ)
  let vRadius := cubicBezier t v0.x v1.x v2.x v3.x
  let vHeight := cubicBezier t v0.y v1.y v2.y v3.y
  let yRaw := vHeight * params.height * 400
  let angle := u * pi * 2
  let rBase := (params.gridWidth / 2) * vRadius
  let xyz : ℚ × ℚ × ℚ := (cos angle * rBase, -yRaw, sin angle * rBase)
  let k := 3 * (i * (steps + 1) + j)
  let jittered :=
    if params.noise > 0 then
      let jitter := params.noise * 20
      (xyz.1 + (rand k - 0.5) * jitter,
       xyz.2.1 + (rand (k + 1) - 0.5) * jitter,
       xyz.2.2 + (rand (k + 2) - 0.5) * jitter)
    else xyz
  let finalColor :=
    if params.colorMode = ("height") then
      interpolateColor params.color params.color2 vHeight
    else if params.colorMode = ("depth") then
      let factor := max 0 (min 1 ((jittered.2.2 + params.gridDepth / 2) / params.gridDepth))
      interpolateColor params.color params.color2 factor
    else params.color
  GenPoint.mk jittered.1 jittered.2.1 jittered.2.2 finalColor

/-! ## Helper lemmas -/

/-- `optionMapList` of an everywhere-`some` function is `some` of the map. -/
theorem optionMapList_someFun {α β : Type} (f : α → β) :
    ∀ l : List α, optionMapList (fun a => some (f a)) l = some (l.map f) := by
  intro l
  induction l with
  | nil => rfl
  | cons a l ih => simp [optionMapList, ih]

/-- Pointwise-equal functions have equal `optionMapList`. -/
theorem optionMapList_congr {α β : Type} {f g : α → Option β}
    (h : ∀ a, f a = g a) : ∀ l : List α, optionMapList f l = optionMapList g l := by
  intro l
  induction l with
  | nil => rfl
  | cons a l ih => simp [optionMapList, ih, h]

/-- `optionMapList` over a nonempty list fails as soon as its head fails. -/
theorem optionMapList_head_none {α β : Type} {f : α → Option β} {a : α}
    (h : f a = none) (l : List α) : optionMapList f (a :: l) = none := by
  simp [optionMapList, h]

/-! ## Claims -/

/-- C10: the spline sampler is total on an empty point sequence: for every
t and axis it returns 0 (the source guards `points[0] ? points[0][axis] : 0`
before any indexing arithmetic). -/
theorem c10_sample_empty_total (t : ℚ) (axis : Axis) :
    sampleBezierSpline t [] axis = some 0 := rfl

/-- C5 counterexample: on the 2-point zero-handle curve with anchors
(0,0) and (1,1) at t = 1/4, `sampleBezierSpline` on the x axis returns
5/32, while linear interpolation of the anchors gives 1/4: the claimed
reduction to linear interpolation is false. -/
theorem c5_counterexample :
    sampleBezierSpline (1/4)
      [CurvePoint.mk 0 0 (Handle.mk 0 0) (Handle.mk 0 0),
       CurvePoint.mk 1 1 (Handle.mk 0 0) (Handle.mk 0 0)] Axis.x
      = some (5/32) ∧
    (5/32 : ℚ) ≠ (1 - 1/4) * 0 + (1/4) * 1 := by
  constructor
  · norm_num [sampleBezierSpline, jsIndex, cubicBezier, axisVal,
      Int.floor_eq_zero_iff]
  · norm_num

/-- C5 (amended): for t in [0,1] and a 2-point curve whose relevant handle
offsets are zero, `sampleBezierSpline` equals the smoothstep blend
`a0 + (a1 - a0) · t²·(3 - 2t)` of the two anchors — not their linear
interpolation. -/
theorem c5_two_point_smoothstep (p q : CurvePoint) (axis : Axis) (t : ℚ)
    (hp : p.cp2 = Handle.mk 0 0) (hq : q.cp1 = Handle.mk 0 0)
    (h0 : 0 ≤ t) (h1 : t ≤ 1) :
    sampleBezierSpline t [p, q] axis =
      some (axisVal p axis + (axisVal q axis - axisVal p axis) * (t ^ 2 * (3 - 2 * t))) := by
  by_cases ht : t = 1
  · subst ht
    have hfl : (⌊(1 : ℚ) * ((1 : ℕ) : ℚ)⌋ : ℤ) = 1 := by norm_num
    simp only [sampleBezierSpline, List.length_cons, List.length_nil, hfl]
    norm_num [axisVal]
  · have htlt : t < 1 := lt_of_le_of_ne h1 ht
    have hfl : (⌊t * ((1 : ℕ) : ℚ)⌋ : ℤ) = 0 := by
      rw [Int.floor_eq_zero_iff]
      constructor <;> simpa
    simp only [sampleBezierSpline, List.length_cons, List.length_nil, hfl]
    norm_num [jsIndex]
    cases axis <;> simp [axisVal, hp, hq, cubicBezier] <;> ring

/-- C5 witness: the smoothstep theorem instantiated on the anchors (0,0),
(1,1) at t = 1/2 (where smoothstep and lerp happen to agree). -/
theorem c5_witness :
    sampleBezierSpline (1/2)
      [CurvePoint.mk 0 0 (Handle.mk 0 0) (Handle.mk 0 0),
       CurvePoint.mk 1 1 (Handle.mk 0 0) (Handle.mk 0 0)] Axis.x
      = some (0 + (1 - 0) * ((1/2 : ℚ) ^ 2 * (3 - 2 * (1/2)))) :=
  c5_two_point_smoothstep
    (CurvePoint.mk 0 0 (Handle.mk 0 0) (Handle.mk 0 0))
    (CurvePoint.mk 1 1 (Handle.mk 0 0) (Handle.mk 0 0))
    Axis.x (1/2) rfl rfl (by norm_num) (by norm_num)

/-- C4 counterexample: a zoom of -5 passes through the updateUniforms
safety check unchanged, giving the negative (inverted) camera distance
1000 / (-5) = -200; and a zoom of 0 is reset to 1.0, not to the boundary
0.1 of the wheel-zoom range [0.1, 20]. -/
theorem c4_counterexample :
    WebGPURenderer.resolveZoom (-5) = -5 ∧
    1000.0 / WebGPURenderer.resolveZoom (-5) < 0 ∧
    WebGPURenderer.resolveZoom 0 = 1 ∧
    WebGPURenderer.resolveZoom 0 ≠ 0.1 := by
  norm_num [WebGPURenderer.resolveZoom]

/-- C4 (amended): before matrix construction `updateUniforms` resets a zoom
of 0 to 1.0 (so the camera distance 1000/zoom is never a division by zero),
but leaves every nonzero zoom — negative values included — unchanged; only
the wheel and pinch handlers clamp zoom, into [0.1, 20]. -/
theorem c4_zoom_resolution :
    WebGPURenderer.resolveZoom 0 = 1.0 ∧
    (∀ z : ℚ, z ≠ 0 → WebGPURenderer.resolveZoom z = z) ∧
    (∀ z d : ℚ, 0.1 ≤ WebGPURenderer.wheelZoom z d ∧
      WebGPURenderer.wheelZoom z d ≤ 20) := by
  refine ⟨by norm_num [WebGPURenderer.resolveZoom], fun z hz => ?_, fun z d => ⟨?_, ?_⟩⟩
  · simp [WebGPURenderer.resolveZoom, hz]
  · exact le_max_left _ _
  · exact max_le (by norm_num) (min_le_left _ _)

/-- C4 witness: the zoom-resolution theorem applied at zoom -5 and at a
wheel step from zoom 3 with delta 0.9. -/
theorem c4_witness :
    WebGPURenderer.resolveZoom (-5) = -5 ∧
    0.1 ≤ WebGPURenderer.wheelZoom 3 0.9 ∧
    WebGPURenderer.wheelZoom 3 0.9 ≤ 20 :=
  ⟨c4_zoom_resolution.2.1 (-5) (by norm_num),
   (c4_zoom_resolution.2.2 3 0.9).1,
   (c4_zoom_resolution.2.2 3 0.9).2⟩

/-- C1: transform parity — for every interpretation of the trigonometric
primitives, every camera state with nonzero zoom and every nondegenerate
viewport, the MVP matrix built by `Exporter.toSVG` equals the MVP matrix
built by `WebGPURenderer.updateUniforms`. -/
theorem c1_mvp_parity (cos sin tan : ℚ → ℚ) (pi : ℚ)
    (angleX angleY zoom offsetX offsetY width height : ℚ)
    (hz : zoom ≠ 0) (ha : width / height ≠ 0) :
    Exporter.toSVGmvp cos sin tan pi angleX angleY zoom offsetX offsetY width height =
      WebGPURenderer.updateUniformsMVP cos sin tan pi angleX angleY zoom offsetX offsetY width height := by
  simp only [Exporter.toSVGmvp, WebGPURenderer.updateUniformsMVP, jsOr,
    WebGPURenderer.resolveZoom, if_neg hz, if_neg ha]
  rfl

/-- C1 witness: parity at the concrete camera state (angleX, angleY, zoom,
offsetX, offsetY) = (1, 2, 2, 5, 7) on a 4×2 viewport, trig interpreted as
constants. -/
theorem c1_witness :
    Exporter.toSVGmvp (fun _ => 1) (fun _ => 0) (fun _ => 1) 3 1 2 2 5 7 4 2 =
      WebGPURenderer.updateUniformsMVP (fun _ => 1) (fun _ => 0) (fun _ => 1) 3 1 2 2 5 7 4 2 :=
  c1_mvp_parity (fun _ => 1) (fun _ => 0) (fun _ => 1) 3 1 2 2 5 7 4 2
    (by norm_num) (by norm_num)

/-- C7: the circle primitives emitted by `Exporter.toSVG` — the transformed
points that survive the zero-W and depth clip and the `r < 0.1` visibility
threshold — appear in non-increasing post-divide depth order (far to near):
any emitted point is at least as deep as every one emitted after it. -/
theorem c7_svg_depth_sorted (cos sin tan : ℚ → ℚ) (pi : ℚ)
    (points : List GenPoint)
    (angleX angleY zoom offsetX offsetY width height radius : ℚ) :
    List.Sorted (fun a b : ℚ => b ≤ a)
      ((Exporter.toSVGEmitted cos sin tan pi points angleX angleY zoom
          offsetX offsetY width height radius).map TransformedPt.zDepth) := by
  rw [List.Sorted, List.pairwise_map]
  apply List.Pairwise.filter
  have h := @List.sorted_mergeSort TransformedPt
    (fun a b : TransformedPt => decide (b.zDepth ≤ a.zDepth))
    (fun a b c hab hbc => by
      simp only [decide_eq_true_eq] at *
      exact le_trans hbc hab)
    (fun a b => by
      simp only [Bool.or_eq_true, decide_eq_true_eq]
      exact le_total b.zDepth a.zDepth)
    (Exporter.toSVGTransformed cos sin tan pi points angleX angleY zoom
      offsetX offsetY width height radius)
  unfold Exporter.toSVGSorted
  exact h.imp (fun hab => by simpa using hab)


/-- In sweep mode (the default branch) the inner loop body is total on a
4-point-or-longer horizontal curve and computes `sweepPointFormula`. -/
theorem genPointAt_sweep_eq (cos sin : ℚ → ℚ) (pi : ℚ) (rand : ℕ → ℚ)
    (params : SurfaceParams) (v0 v1 v2 v3 h0 h1 h2 h3 : CurvePoint)
    (hr : List CurvePoint) (i j : ℕ) :
    genPointAt ("sweep") cos sin pi rand (h0 :: h1 :: h2 :: h3 :: hr) params
      params.density
      (cubicBezier ((i : ℚ) / (params.density : ℚ)) v0.x v1.x v2.x v3.x)
      (cubicBezier ((i : ℚ) / (params.density : ℚ)) v0.y v1.y v2.y v3.y)
      (cubicBezier ((i : ℚ) / (params.density : ℚ)) v0.y v1.y v2.y v3.y *
        params.height * 400) i j
      = some (sweepPointFormula rand params v0 v1 v2 v3 h0 h1 h2 h3 i j) := by
  simp [genPointAt, sweepPointFormula]

/-- In revolution mode the inner loop body never reads the horizontal curve
and computes `revolutionPointFormula`. -/
theorem genPointAt_revolution_eq (cos sin : ℚ → ℚ) (pi : ℚ) (rand : ℕ → ℚ)
    (params : SurfaceParams) (v0 v1 v2 v3 : CurvePoint)
    (hc : List CurvePoint) (i j : ℕ) :
    genPointAt ("revolution") cos sin pi rand hc params params.density
      (cubicBezier ((i : ℚ) / (params.density : ℚ)) v0.x v1.x v2.x v3.x)
      (cubicBezier ((i : ℚ) / (params.density : ℚ)) v0.y v1.y v2.y v3.y)
      (cubicBezier ((i : ℚ) / (params.density : ℚ)) v0.y v1.y v2.y v3.y *
        params.height * 400) i j
      = some (revolutionPointFormula cos sin pi rand params v0 v1 v2 v3 i j) := by
  simp [genPointAt, revolutionPointFormula]

/-- Row closed form, sweep mode. -/
theorem genRow_sweep_eq (cos sin : ℚ → ℚ) (pi : ℚ) (rand : ℕ → ℚ)
    (params : SurfaceParams) (v0 v1 v2 v3 h0 h1 h2 h3 : CurvePoint)
    (vr hr : List CurvePoint) (i : ℕ) :
    genRow ("sweep") cos sin pi rand (v0 :: v1 :: v2 :: v3 :: vr)
      (h0 :: h1 :: h2 :: h3 :: hr) params params.density i
      = some ((List.range (params.density + 1)).map
          (sweepPointFormula rand params v0 v1 v2 v3 h0 h1 h2 h3 i)) := by
  unfold genRow
  simp only [List.getElem?_cons_zero, List.getElem?_cons_succ,
    Option.bind_eq_bind, Option.some_bind]
  rw [optionMapList_congr
    (fun j => genPointAt_sweep_eq cos sin pi rand params v0 v1 v2 v3 h0 h1 h2 h3 hr i j),
    optionMapList_someFun]

/-- Row closed form, revolution mode: only the vertical curve is read. -/
theorem genRow_revolution_eq (cos sin : ℚ → ℚ) (pi : ℚ) (rand : ℕ → ℚ)
    (params : SurfaceParams) (v0 v1 v2 v3 : CurvePoint)
    (vr hc : List CurvePoint) (i : ℕ) :
    genRow ("revolution") cos sin pi rand (v0 :: v1 :: v2 :: v3 :: vr)
      hc params params.density i
      = some ((List.range (params.density + 1)).map
          (revolutionPointFormula cos sin pi rand params v0 v1 v2 v3 i)) := by
  unfold genRow
  simp only [List.getElem?_cons_zero, List.getElem?_cons_succ,
    Option.bind_eq_bind, Option.some_bind]
  rw [optionMapList_congr
    (fun j => genPointAt_revolution_eq cos sin pi rand params v0 v1 v2 v3 hc i j),
    optionMapList_someFun]

/-- Generate closed form, sweep mode. -/
theorem generate_sweep_eq (cos sin : ℚ → ℚ) (pi : ℚ) (rand : ℕ → ℚ)
    (params : SurfaceParams) (v0 v1 v2 v3 h0 h1 h2 h3 : CurvePoint)
    (vr hr : List CurvePoint) :
    generate ("sweep") cos sin pi rand (v0 :: v1 :: v2 :: v3 :: vr)
      (h0 :: h1 :: h2 :: h3 :: hr) params
      = some (((List.range (params.density + 1)).map (fun i =>
          (List.range (params.density + 1)).map
            (sweepPointFormula rand params v0 v1 v2 v3 h0 h1 h2 h3 i))).flatten) := by
  show (optionMapList
      (genRow ("sweep") cos sin pi rand (v0 :: v1 :: v2 :: v3 :: vr)
        (h0 :: h1 :: h2 :: h3 :: hr) params params.density)
      (List.range (params.density + 1))).bind
      (fun rows => some rows.flatten) = _
  rw [optionMapList_congr
    (fun i => genRow_sweep_eq cos sin pi rand params v0 v1 v2 v3 h0 h1 h2 h3 vr hr i),
    optionMapList_someFun]
  rfl

/-- Generate closed form, revolution mode. -/
theorem generate_revolution_eq (cos sin : ℚ → ℚ) (pi : ℚ) (rand : ℕ → ℚ)
    (params : SurfaceParams) (v0 v1 v2 v3 : CurvePoint)
    (vr hc : List CurvePoint) :
    generate ("revolution") cos sin pi rand (v0 :: v1 :: v2 :: v3 :: vr)
      hc params
      = some (((List.range (params.density + 1)).map (fun i =>
          (List.range (params.density + 1)).map
            (revolutionPointFormula cos sin pi rand params v0 v1 v2 v3 i))).flatten) := by
  show (optionMapList
      (genRow ("revolution") cos sin pi rand (v0 :: v1 :: v2 :: v3 :: vr)
        hc params params.density)
      (List.range (params.density + 1))).bind
      (fun rows => some rows.flatten) = _
  rw [optionMapList_congr
    (fun i => genRow_revolution_eq cos sin pi rand params v0 v1 v2 v3 vr hc i),
    optionMapList_someFun]
  rfl

/-- Midpoint value of the spline evaluator on a 4-point curve whose middle
handles are zero: t = 1/2 falls in segment 1 with local weight 1/2. -/
theorem sampleSpline_four_mid (p0 p1 p2 p3 : CurvePoint)
    (h1 : p1.cp2 = Handle.mk 0 0) (h2 : p2.cp1 = Handle.mk 0 0) (axis : Axis) :
    sampleBezierSpline (1/2) [p0, p1, p2, p3] axis =
      some (cubicBezier (1/2) (axisVal p1 axis) (axisVal p1 axis)
        (axisVal p2 axis) (axisVal p2 axis)) := by
  have hfl : (⌊(1/2 : ℚ) * 3⌋ : ℤ) = 1 := by norm_num
  have hA : jsIndex [p0, p1, p2, p3] (1 : ℤ) = some p1 := rfl
  have hB : jsIndex [p0, p1, p2, p3] (2 : ℤ) = some p2 := rfl
  simp only [sampleBezierSpline, List.length_cons, List.length_nil]
  norm_num [hfl, hA, hB]
  cases axis <;> simp [hB, axisVal, h1, h2, cubicBezier]

/-- C2 counterexample: on the 4-point zero-handle vertical curve with
y-anchors (0,0,0,1), the spline evaluator at v = 1/2 returns 0, yet the
sweep-mode generator (density 2, heightScale 1, noise 0) produces the grid
point (i,j) = (1,0) — list index 3 — with y = -50, i.e. its vHeight is
cubicBezier(1/2; 0,0,0,1) = 1/8, not sampleSpline(1/2) = 0: `generate` does
not obtain vHeight from the spline evaluator. -/
theorem c2_counterexample :
    sampleBezierSpline (1/2)
      [CurvePoint.mk 1 0 (Handle.mk 0 0) (Handle.mk 0 0),
       CurvePoint.mk 1 0 (Handle.mk 0 0) (Handle.mk 0 0),
       CurvePoint.mk 1 0 (Handle.mk 0 0) (Handle.mk 0 0),
       CurvePoint.mk 1 1 (Handle.mk 0 0) (Handle.mk 0 0)] Axis.y = some 0 ∧
    (((generate ("sweep") (fun _ => 1) (fun _ => 0) 3 (fun _ => 0)
        [CurvePoint.mk 1 0 (Handle.mk 0 0) (Handle.mk 0 0),
         CurvePoint.mk 1 0 (Handle.mk 0 0) (Handle.mk 0 0),
         CurvePoint.mk 1 0 (Handle.mk 0 0) (Handle.mk 0 0),
         CurvePoint.mk 1 1 (Handle.mk 0 0) (Handle.mk 0 0)]
        [CurvePoint.mk 0.5 0.5 (Handle.mk 0 0) (Handle.mk 0 0),
         CurvePoint.mk 0.5 0.5 (Handle.mk 0 0) (Handle.mk 0 0),
         CurvePoint.mk 0.5 0.5 (Handle.mk 0 0) (Handle.mk 0 0),
         CurvePoint.mk 0.5 0.5 (Handle.mk 0 0) (Handle.mk 0 0)]
        (SurfaceParams.mk 2 1 ("#7c4dff") ("#00aaff") ("solid") 0 400 400)).getD
        [])[3]?).map GenPoint.y = some (-50) ∧
    (-50 : ℚ) ≠ -(0 * 1 * 400) := by
  refine ⟨?_, ?_, by norm_num⟩
  · rw [sampleSpline_four_mid _ _ _ _ rfl rfl Axis.y]
    norm_num [axisVal, cubicBezier]
  · rw [generate_sweep_eq]
    simp [List.range_succ, sweepPointFormula, cubicBezier]
    norm_num

/-- C2 (amended): for every grid cell and all curves with at least four
points, `generate` is total and samples each curve with a **single**
`cubicBezier` whose control values are the anchor coordinates of the first
four points — `vRadius`/`vHeight` from the vertical anchors, and in sweep
mode `(rawX, rawZ)` from the horizontal anchors.  Handle offsets and points
beyond the fourth never enter the result (they are absent from the closed
forms), and `sampleBezierSpline` is not used. -/
theorem c2_generate_anchor_bezier (cos sin : ℚ → ℚ) (pi : ℚ) (rand : ℕ → ℚ)
    (params : SurfaceParams) (v0 v1 v2 v3 h0 h1 h2 h3 : CurvePoint)
    (vr hr hc : List CurvePoint) :
    generate ("sweep") cos sin pi rand (v0 :: v1 :: v2 :: v3 :: vr)
        (h0 :: h1 :: h2 :: h3 :: hr) params
      = some (((List.range (params.density + 1)).map (fun i =>
          (List.range (params.density + 1)).map
            (sweepPointFormula rand params v0 v1 v2 v3 h0 h1 h2 h3 i))).flatten) ∧
    generate ("revolution") cos sin pi rand (v0 :: v1 :: v2 :: v3 :: vr)
        hc params
      = some (((List.range (params.density + 1)).map (fun i =>
          (List.range (params.density + 1)).map
            (revolutionPointFormula cos sin pi rand params v0 v1 v2 v3 i))).flatten) :=
  ⟨generate_sweep_eq cos sin pi rand params v0 v1 v2 v3 h0 h1 h2 h3 vr hr,
   generate_revolution_eq cos sin pi rand params v0 v1 v2 v3 vr hc⟩

/-- C3 counterexample: with the default gridWidth = 400, heightScale = 1 and
a vertical curve of constant anchor height 1 (so vHeight = 1), the first
generated sweep point has y = -400 — the claimed
y = -(vHeight · heightScale · gridWidth/2) = -200 is wrong: the factor in
the source is the constant 400, not gridWidth/2. -/
theorem c3_counterexample :
    (((generate ("sweep") (fun _ => 1) (fun _ => 0) 3 (fun _ => 0)
        [CurvePoint.mk 1 1 (Handle.mk 0 0) (Handle.mk 0 0),
         CurvePoint.mk 1 1 (Handle.mk 0 0) (Handle.mk 0 0),
         CurvePoint.mk 1 1 (Handle.mk 0 0) (Handle.mk 0 0),
         CurvePoint.mk 1 1 (Handle.mk 0 0) (Handle.mk 0 0)]
        [CurvePoint.mk 0.5 0.5 (Handle.mk 0 0) (Handle.mk 0 0),
         CurvePoint.mk 0.5 0.5 (Handle.mk 0 0) (Handle.mk 0 0),
         CurvePoint.mk 0.5 0.5 (Handle.mk 0 0) (Handle.mk 0 0),
         CurvePoint.mk 0.5 0.5 (Handle.mk 0 0) (Handle.mk 0 0)]
        (SurfaceParams.mk 1 1 ("#7c4dff") ("#00aaff") ("solid") 0 400 400)).getD
        [])[0]?).map GenPoint.y = some (-400) ∧
    cubicBezier 0 1 1 1 1 = 1 ∧
    (-400 : ℚ) ≠ -(cubicBezier 0 1 1 1 1 * 1 * (400 / 2)) := by
  refine ⟨?_, by norm_num [cubicBezier], by norm_num [cubicBezier]⟩
  rw [generate_sweep_eq]
  simp [List.range_succ, sweepPointFormula, cubicBezier]

/-- C3 (amended): in sweep and revolution modes, with zero noise (the
jitter is added to y afterwards), every generated point has
y = -(vHeight · heightScale · 400), where vHeight is the anchor Bézier of
the vertical curve at the row parameter of the point, and 400 is a hardcoded
constant independent of gridWidth. -/
theorem c3_y_is_negated_raw_height (cos sin : ℚ → ℚ) (pi : ℚ) (rand : ℕ → ℚ)
    (params : SurfaceParams) (v0 v1 v2 v3 h0 h1 h2 h3 : CurvePoint)
    (vr hr hc : List CurvePoint) (hn : params.noise = 0) :
    (∀ L, generate ("sweep") cos sin pi rand (v0 :: v1 :: v2 :: v3 :: vr)
        (h0 :: h1 :: h2 :: h3 :: hr) params = some L →
      ∀ p ∈ L, ∃ i ≤ params.density,
        p.y = -(cubicBezier ((i : ℚ) / (params.density : ℚ)) v0.y v1.y v2.y v3.y *
          params.height * 400)) ∧
    (∀ L, generate ("revolution") cos sin pi rand (v0 :: v1 :: v2 :: v3 :: vr)
        hc params = some L →
      ∀ p ∈ L, ∃ i ≤ params.density,
        p.y = -(cubicBezier ((i : ℚ) / (params.density : ℚ)) v0.y v1.y v2.y v3.y *
          params.height * 400)) := by
  constructor
  · intro L hL p hp
    rw [generate_sweep_eq] at hL
    obtain rfl := Option.some.inj hL.symm
    rw [List.mem_flatten] at hp
    obtain ⟨l, hl, hpl⟩ := hp
    rw [List.mem_map] at hl
    obtain ⟨i, hi, rfl⟩ := hl
    rw [List.mem_map] at hpl
    obtain ⟨j, hj, rfl⟩ := hpl
    rw [List.mem_range] at hi
    refine ⟨i, Nat.lt_succ_iff.mp hi, ?_⟩
    simp [sweepPointFormula, hn]
  · intro L hL p hp
    rw [generate_revolution_eq] at hL
    obtain rfl := Option.some.inj hL.symm
    rw [List.mem_flatten] at hp
    obtain ⟨l, hl, hpl⟩ := hp
    rw [List.mem_map] at hl
    obtain ⟨i, hi, rfl⟩ := hl
    rw [List.mem_map] at hpl
    obtain ⟨j, hj, rfl⟩ := hpl
    rw [List.mem_range] at hi
    refine ⟨i, Nat.lt_succ_iff.mp hi, ?_⟩
    simp [revolutionPointFormula, hn]

/-- C3 witness: the negated-raw-height theorem applied to a density-1 sweep
generation with constant anchor height 1: the produced corner point has
y = -(1 · 1 · 400). -/
theorem c3_witness :
    ∃ i ≤ (1 : ℕ),
      (sweepPointFormula (fun _ => 0)
        (SurfaceParams.mk 1 1 ("#7c4dff") ("#00aaff") ("solid") 0 400 400)
        (CurvePoint.mk 1 1 (Handle.mk 0 0) (Handle.mk 0 0))
        (CurvePoint.mk 1 1 (Handle.mk 0 0) (Handle.mk 0 0))
        (CurvePoint.mk 1 1 (Handle.mk 0 0) (Handle.mk 0 0))
        (CurvePoint.mk 1 1 (Handle.mk 0 0) (Handle.mk 0 0))
        (CurvePoint.mk 0.5 0.5 (Handle.mk 0 0) (Handle.mk 0 0))
        (CurvePoint.mk 0.5 0.5 (Handle.mk 0 0) (Handle.mk 0 0))
        (CurvePoint.mk 0.5 0.5 (Handle.mk 0 0) (Handle.mk 0 0))
        (CurvePoint.mk 0.5 0.5 (Handle.mk 0 0) (Handle.mk 0 0)) 0 0).y =
      -(cubicBezier ((i : ℚ) / ((1 : ℕ) : ℚ)) 1 1 1 1 * 1 * 400) := by
  refine (c3_y_is_negated_raw_height (fun _ => 1) (fun _ => 0) 3 (fun _ => 0)
    (SurfaceParams.mk 1 1 ("#7c4dff") ("#00aaff") ("solid") 0 400 400)
    (CurvePoint.mk 1 1 (Handle.mk 0 0) (Handle.mk 0 0))
    (CurvePoint.mk 1 1 (Handle.mk 0 0) (Handle.mk 0 0))
    (CurvePoint.mk 1 1 (Handle.mk 0 0) (Handle.mk 0 0))
    (CurvePoint.mk 1 1 (Handle.mk 0 0) (Handle.mk 0 0))
    (CurvePoint.mk 0.5 0.5 (Handle.mk 0 0) (Handle.mk 0 0))
    (CurvePoint.mk 0.5 0.5 (Handle.mk 0 0) (Handle.mk 0 0))
    (CurvePoint.mk 0.5 0.5 (Handle.mk 0 0) (Handle.mk 0 0))
    (CurvePoint.mk 0.5 0.5 (Handle.mk 0 0) (Handle.mk 0 0))
    [] [] [] rfl).1 _
    (generate_sweep_eq (fun _ => 1) (fun _ => 0) 3 (fun _ => 0)
      (SurfaceParams.mk 1 1 ("#7c4dff") ("#00aaff") ("solid") 0 400 400)
      (CurvePoint.mk 1 1 (Handle.mk 0 0) (Handle.mk 0 0))
      (CurvePoint.mk 1 1 (Handle.mk 0 0) (Handle.mk 0 0))
      (CurvePoint.mk 1 1 (Handle.mk 0 0) (Handle.mk 0 0))
      (CurvePoint.mk 1 1 (Handle.mk 0 0) (Handle.mk 0 0))
      (CurvePoint.mk 0.5 0.5 (Handle.mk 0 0) (Handle.mk 0 0))
      (CurvePoint.mk 0.5 0.5 (Handle.mk 0 0) (Handle.mk 0 0))
      (CurvePoint.mk 0.5 0.5 (Handle.mk 0 0) (Handle.mk 0 0))
      (CurvePoint.mk 0.5 0.5 (Handle.mk 0 0) (Handle.mk 0 0)) [] []) _ ?_
  rw [List.mem_flatten]
  refine ⟨_, List.mem_map.mpr ⟨0, List.mem_range.mpr (by norm_num), rfl⟩,
    List.mem_map.mpr ⟨0, List.mem_range.mpr (by norm_num), rfl⟩⟩

/-- C6: the default curves of the repository itself (3 points each, from the
CurveEditor constructor) make `generate` fault: the access
`verticalCurve[3].x` hits `undefined` and throws instead of falling back to
the short-curve fallback of the spline sampler. -/
theorem c6_default_curves_fault :
    generate ("sweep") (fun _ => 1) (fun _ => 0) 3 (fun _ => 0)
      [CurvePoint.mk 0.5 0 (Handle.mk (-0.1) 0) (Handle.mk 0.1 0),
       CurvePoint.mk 0.8 0.5 (Handle.mk 0 (-0.1)) (Handle.mk 0 0.1),
       CurvePoint.mk 0.5 1 (Handle.mk 0.1 0) (Handle.mk (-0.1) 0)]
      [CurvePoint.mk 0 0.5 (Handle.mk 0 0.2) (Handle.mk 0 (-0.2)),
       CurvePoint.mk 0.5 0.1 (Handle.mk (-0.2) 0) (Handle.mk 0.2 0),
       CurvePoint.mk 1 0.5 (Handle.mk 0 (-0.2)) (Handle.mk 0 0.2)]
      (SurfaceParams.mk 30 1 ("#7c4dff") ("#00aaff") ("solid") 0 400 400)
      = none := by
  show (optionMapList
      (genRow ("sweep") (fun _ => 1) (fun _ => 0) 3 (fun _ => 0)
        [CurvePoint.mk 0.5 0 (Handle.mk (-0.1) 0) (Handle.mk 0.1 0),
         CurvePoint.mk 0.8 0.5 (Handle.mk 0 (-0.1)) (Handle.mk 0 0.1),
         CurvePoint.mk 0.5 1 (Handle.mk 0.1 0) (Handle.mk (-0.1) 0)]
        [CurvePoint.mk 0 0.5 (Handle.mk 0 0.2) (Handle.mk 0 (-0.2)),
         CurvePoint.mk 0.5 0.1 (Handle.mk (-0.2) 0) (Handle.mk 0.2 0),
         CurvePoint.mk 1 0.5 (Handle.mk 0 (-0.2)) (Handle.mk 0 0.2)]
        (SurfaceParams.mk 30 1 ("#7c4dff") ("#00aaff") ("solid") 0 400 400) 30)
      (List.range (30 + 1))).bind (fun rows => some (rows.flatten)) = none
  rw [List.range_succ_eq_map, optionMapList_head_none rfl]
  rfl

/-- With zero noise the inner loop body never consults the random stream. -/
theorem genPointAt_rand_congr (mode : String) (cos sin : ℚ → ℚ) (pi : ℚ)
    (r1 r2 : ℕ → ℚ) (hc : List CurvePoint) (params : SurfaceParams)
    (steps : ℕ) (vRadius vHeight yRaw : ℚ) (i j : ℕ)
    (hn : params.noise = 0) :
    genPointAt mode cos sin pi r1 hc params steps vRadius vHeight yRaw i j =
      genPointAt mode cos sin pi r2 hc params steps vRadius vHeight yRaw i j := by
  simp only [genPointAt, hn, gt_iff_lt, lt_self_iff_false, if_false]

/-- With zero noise a whole generated row is independent of the random
stream. -/
theorem genRow_rand_congr (mode : String) (cos sin : ℚ → ℚ) (pi : ℚ)
    (r1 r2 : ℕ → ℚ) (vc hc : List CurvePoint) (params : SurfaceParams)
    (steps : ℕ) (i : ℕ) (hn : params.noise = 0) :
    genRow mode cos sin pi r1 vc hc params steps i =
      genRow mode cos sin pi r2 vc hc params steps i := by
  unfold genRow
  refine Option.bind_congr fun v0 _ => ?_
  refine Option.bind_congr fun v1 _ => ?_
  refine Option.bind_congr fun v2 _ => ?_
  refine Option.bind_congr fun v3 _ => ?_
  exact optionMapList_congr
    (fun j => genPointAt_rand_congr mode cos sin pi r1 r2 hc params
      steps _ _ _ i j hn) _

/-- C8: generator determinism — with identical curves, identical params with
zero noise amplitude and the same geometry mode, `generate` returns the same
point sequence whatever the random stream produces (positions and colors
alike); the random source is consulted only by the noise jitter. -/
theorem c8_generate_deterministic (mode : String) (cos sin : ℚ → ℚ) (pi : ℚ)
    (r1 r2 : ℕ → ℚ) (vc hc : List CurvePoint) (params : SurfaceParams)
    (hn : params.noise = 0) :
    generate mode cos sin pi r1 vc hc params =
      generate mode cos sin pi r2 vc hc params := by
  show (optionMapList (genRow mode cos sin pi r1 vc hc params params.density)
      (List.range (params.density + 1))).bind (fun rows => some rows.flatten) =
    (optionMapList (genRow mode cos sin pi r2 vc hc params params.density)
      (List.range (params.density + 1))).bind (fun rows => some rows.flatten)
  rw [optionMapList_congr
    (fun i => genRow_rand_congr mode cos sin pi r1 r2 vc hc params
      params.density i hn)]

/-- C8 witness: determinism instantiated on a concrete density-1 sweep
generation, comparing the all-zero random stream against a nontrivial one. -/
theorem c8_witness :
    generate ("sweep") (fun _ => 1) (fun _ => 0) 3 (fun _ => 0)
      [CurvePoint.mk 1 1 (Handle.mk 0 0) (Handle.mk 0 0),
       CurvePoint.mk 1 1 (Handle.mk 0 0) (Handle.mk 0 0),
       CurvePoint.mk 1 1 (Handle.mk 0 0) (Handle.mk 0 0),
       CurvePoint.mk 1 1 (Handle.mk 0 0) (Handle.mk 0 0)]
      [CurvePoint.mk 0.5 0.5 (Handle.mk 0 0) (Handle.mk 0 0),
       CurvePoint.mk 0.5 0.5 (Handle.mk 0 0) (Handle.mk 0 0),
       CurvePoint.mk 0.5 0.5 (Handle.mk 0 0) (Handle.mk 0 0),
       CurvePoint.mk 0.5 0.5 (Handle.mk 0 0) (Handle.mk 0 0)]
      (SurfaceParams.mk 1 1 ("#7c4dff") ("#00aaff") ("solid") 0 400 400) =
    generate ("sweep") (fun _ => 1) (fun _ => 0) 3 (fun n => (n : ℚ) + 7)
      [CurvePoint.mk 1 1 (Handle.mk 0 0) (Handle.mk 0 0),
       CurvePoint.mk 1 1 (Handle.mk 0 0) (Handle.mk 0 0),
       CurvePoint.mk 1 1 (Handle.mk 0 0) (Handle.mk 0 0),
       CurvePoint.mk 1 1 (Handle.mk 0 0) (Handle.mk 0 0)]
      [CurvePoint.mk 0.5 0.5 (Handle.mk 0 0) (Handle.mk 0 0),
       CurvePoint.mk 0.5 0.5 (Handle.mk 0 0) (Handle.mk 0 0),
       CurvePoint.mk 0.5 0.5 (Handle.mk 0 0) (Handle.mk 0 0),
       CurvePoint.mk 0.5 0.5 (Handle.mk 0 0) (Handle.mk 0 0)]
      (SurfaceParams.mk 1 1 ("#7c4dff") ("#00aaff") ("solid") 0 400 400) :=
  c8_generate_deterministic ("sweep") (fun _ => 1) (fun _ => 0) 3
    (fun _ => 0) (fun n => (n : ℚ) + 7)
    [CurvePoint.mk 1 1 (Handle.mk 0 0) (Handle.mk 0 0),
     CurvePoint.mk 1 1 (Handle.mk 0 0) (Handle.mk 0 0),
     CurvePoint.mk 1 1 (Handle.mk 0 0) (Handle.mk 0 0),
     CurvePoint.mk 1 1 (Handle.mk 0 0) (Handle.mk 0 0)]
    [CurvePoint.mk 0.5 0.5 (Handle.mk 0 0) (Handle.mk 0 0),
     CurvePoint.mk 0.5 0.5 (Handle.mk 0 0) (Handle.mk 0 0),
     CurvePoint.mk 0.5 0.5 (Handle.mk 0 0) (Handle.mk 0 0),
     CurvePoint.mk 0.5 0.5 (Handle.mk 0 0) (Handle.mk 0 0)]
    (SurfaceParams.mk 1 1 ("#7c4dff") ("#00aaff") ("solid") 0 400 400) rfl

/-- Decoding inverts encoding on hex digits. -/
theorem hexVal_hexChar : ∀ d : ℕ, d < 16 → hexVal (hexChar d) = d := by decide

/-- Boolean check that encoding inverts decoding on the sixteen lowercase
digits, with the value bound. -/
theorem hexRT_all :
    lowerHexDigits.all
      (fun c => (hexChar (hexVal c) == c) && decide (hexVal c < 16)) = true := by
  decide

/-- Encoding inverts decoding on lowercase hex digit characters. -/
theorem hexChar_hexVal {c : Char} (h : c ∈ lowerHexDigits) :
    hexChar (hexVal c) = c ∧ hexVal c < 16 := by
  have := List.all_eq_true.mp hexRT_all c h
  simp only [Bool.and_eq_true, beq_iff_eq, decide_eq_true_eq] at this
  exact this

/-- Reading the red pair of an explicit 7-character color list. -/
theorem parsePair_mk1 (d1 d2 d3 d4 d5 d6 : Char) :
    parsePair (String.mk [('#'), d1, d2, d3, d4, d5, d6]) 1 =
      16 * hexVal d1 + hexVal d2 := rfl

/-- Reading the green pair of an explicit 7-character color list. -/
theorem parsePair_mk3 (d1 d2 d3 d4 d5 d6 : Char) :
    parsePair (String.mk [('#'), d1, d2, d3, d4, d5, d6]) 3 =
      16 * hexVal d3 + hexVal d4 := rfl

/-- Reading the blue pair of an explicit 7-character color list. -/
theorem parsePair_mk5 (d1 d2 d3 d4 d5 d6 : Char) :
    parsePair (String.mk [('#'), d1, d2, d3, d4, d5, d6]) 5 =
      16 * hexVal d5 + hexVal d6 := rfl

/-- Round trip through a hex digit character of a value mod 16. -/
theorem hexVal_hexChar_mod (x : ℕ) : hexVal (hexChar (x % 16)) = x % 16 :=
  hexVal_hexChar _ (Nat.mod_lt _ (by norm_num))

/-- Decoding a packed-and-printed color recovers the channels. -/
theorem decode_mk_toHex6 (r g b : ℕ) (hr : r < 256) (hg : g < 256)
    (hb : b < 256) :
    decodeColor (String.mk (('#') :: toHex6 (r * 65536 + g * 256 + b))) =
      (r, g, b) := by
  simp only [decodeColor, toHex6]
  rw [parsePair_mk1, parsePair_mk3, parsePair_mk5]
  simp only [hexVal_hexChar_mod, Prod.mk.injEq]
  refine ⟨by omega, by omega, by omega⟩

/-- Printing the decoded channels of a valid lowercase color reproduces the
string. -/
theorem mk_toHex6_decode (s : String) (h : IsLowerHexColor s) :
    String.mk (('#') :: toHex6
      ((parsePair s 1) * 65536 + (parsePair s 3) * 256 + (parsePair s 5))) = s := by
  obtain ⟨c1, c2, c3, c4, c5, c6, hdata, m1, m2, m3, m4, m5, m6⟩ := h
  obtain ⟨e1, b1⟩ := hexChar_hexVal m1
  obtain ⟨e2, b2⟩ := hexChar_hexVal m2
  obtain ⟨e3, b3⟩ := hexChar_hexVal m3
  obtain ⟨e4, b4⟩ := hexChar_hexVal m4
  obtain ⟨e5, b5⟩ := hexChar_hexVal m5
  obtain ⟨e6, b6⟩ := hexChar_hexVal m6
  cases s with
  | mk data =>
    simp only [String.data] at hdata
    subst hdata
    have hp1 : parsePair (String.mk [('#'), c1, c2, c3, c4, c5, c6]) 1 =
        16 * hexVal c1 + hexVal c2 := rfl
    have hp3 : parsePair (String.mk [('#'), c1, c2, c3, c4, c5, c6]) 3 =
        16 * hexVal c3 + hexVal c4 := rfl
    have hp5 : parsePair (String.mk [('#'), c1, c2, c3, c4, c5, c6]) 5 =
        16 * hexVal c5 + hexVal c6 := rfl
    rw [hp1, hp3, hp5]
    refine congrArg String.mk ?_
    simp only [toHex6, List.cons.injEq, and_true]
    refine ⟨trivial, ?_, ?_, ?_, ?_, ?_, ?_⟩
    · rw [show ((16 * hexVal c1 + hexVal c2) * 65536 +
        (16 * hexVal c3 + hexVal c4) * 256 + (16 * hexVal c5 + hexVal c6)) /
          1048576 % 16 = hexVal c1 by omega]
      exact e1
    · rw [show ((16 * hexVal c1 + hexVal c2) * 65536 +
        (16 * hexVal c3 + hexVal c4) * 256 + (16 * hexVal c5 + hexVal c6)) /
          65536 % 16 = hexVal c2 by omega]
      exact e2
    · rw [show ((16 * hexVal c1 + hexVal c2) * 65536 +
        (16 * hexVal c3 + hexVal c4) * 256 + (16 * hexVal c5 + hexVal c6)) /
          4096 % 16 = hexVal c3 by omega]
      exact e3
    · rw [show ((16 * hexVal c1 + hexVal c2) * 65536 +
        (16 * hexVal c3 + hexVal c4) * 256 + (16 * hexVal c5 + hexVal c6)) /
          256 % 16 = hexVal c4 by omega]
      exact e4
    · rw [show ((16 * hexVal c1 + hexVal c2) * 65536 +
        (16 * hexVal c3 + hexVal c4) * 256 + (16 * hexVal c5 + hexVal c6)) /
          16 % 16 = hexVal c5 by omega]
      exact e5
    · rw [show ((16 * hexVal c1 + hexVal c2) * 65536 +
        (16 * hexVal c3 + hexVal c4) * 256 + (16 * hexVal c5 + hexVal c6)) %
          16 = hexVal c6 by omega]
      exact e6

/-- Channel values parsed from a valid lowercase color are below 256. -/
theorem parsePair_lt_256 (s : String) (h : IsLowerHexColor s) :
    parsePair s 1 < 256 ∧ parsePair s 3 < 256 ∧ parsePair s 5 < 256 := by
  obtain ⟨c1, c2, c3, c4, c5, c6, hdata, m1, m2, m3, m4, m5, m6⟩ := h
  cases s with
  | mk data =>
    simp only [String.data] at hdata
    subst hdata
    rw [parsePair_mk1, parsePair_mk3, parsePair_mk5]
    have b1 := (hexChar_hexVal m1).2
    have b2 := (hexChar_hexVal m2).2
    have b3 := (hexChar_hexVal m3).2
    have b4 := (hexChar_hexVal m4).2
    have b5 := (hexChar_hexVal m5).2
    have b6 := (hexChar_hexVal m6).2
    omega

/-- Rounding a natural number leaves it unchanged. -/
theorem jsRound_natCast (n : ℕ) : jsRound (n : ℚ) = (n : ℤ) := by
  unfold jsRound
  rw [Int.floor_eq_iff]
  constructor <;> push_cast <;> linarith

/-- Bounds of one interpolated channel for `t ∈ [0, 1]`. -/
theorem jsRound_channel_bounds (a b : ℕ) (ha : a < 256) (hb : b < 256)
    (t : ℚ) (ht0 : 0 ≤ t) (ht1 : t ≤ 1) :
    0 ≤ jsRound ((a : ℚ) + ((b : ℚ) - a) * t) ∧
      jsRound ((a : ℚ) + ((b : ℚ) - a) * t) ≤ 255 := by
  have ha0 : (0 : ℚ) ≤ (a : ℚ) := by positivity
  have hb0 : (0 : ℚ) ≤ (b : ℚ) := by positivity
  have ha255 : (a : ℚ) ≤ 255 := by
    have h : a ≤ 255 := by omega
    exact_mod_cast h
  have hb255 : (b : ℚ) ≤ 255 := by
    have h : b ≤ 255 := by omega
    exact_mod_cast h
  have hx0 : (0 : ℚ) ≤ (a : ℚ) + ((b : ℚ) - a) * t := by nlinarith
  have hx255 : (a : ℚ) + ((b : ℚ) - a) * t ≤ 255 := by nlinarith
  constructor
  · rw [jsRound]
    exact Int.le_floor.mpr (by push_cast; linarith)
  · rw [jsRound]
    have : ((a : ℚ) + ((b : ℚ) - a) * t + 1/2) < 256 := by linarith
    have hlt := Int.floor_lt.mpr (by push_cast; linarith :
      (a : ℚ) + ((b : ℚ) - a) * t + 1/2 < ((256 : ℤ) : ℚ))
    omega

/-- What `interpolateColor` decodes to for valid colors and `t ∈ [0, 1]`:
each channel is the rounded linear blend of the decoded input channels. -/
theorem decode_interpolateColor (c1 c2 : String) (h1 : IsLowerHexColor c1)
    (h2 : IsLowerHexColor c2) (t : ℚ) (ht0 : 0 ≤ t) (ht1 : t ≤ 1) :
    decodeColor (interpolateColor c1 c2 t) =
      ((jsRound ((parsePair c1 1 : ℚ) + ((parsePair c2 1 : ℚ) - parsePair c1 1) * t)).toNat,
       (jsRound ((parsePair c1 3 : ℚ) + ((parsePair c2 3 : ℚ) - parsePair c1 3) * t)).toNat,
       (jsRound ((parsePair c1 5 : ℚ) + ((parsePair c2 5 : ℚ) - parsePair c1 5) * t)).toNat) := by
  obtain ⟨hr1, hg1, hb1⟩ := parsePair_lt_256 c1 h1
  obtain ⟨hr2, hg2, hb2⟩ := parsePair_lt_256 c2 h2
  obtain ⟨hR0, hR255⟩ := jsRound_channel_bounds _ _ hr1 hr2 t ht0 ht1
  obtain ⟨hG0, hG255⟩ := jsRound_channel_bounds _ _ hg1 hg2 t ht0 ht1
  obtain ⟨hB0, hB255⟩ := jsRound_channel_bounds _ _ hb1 hb2 t ht0 ht1
  rw [interpolateColor]
  rw [show (jsRound ((parsePair c1 1 : ℚ) + ((parsePair c2 1 : ℚ) - parsePair c1 1) * t) * 65536 +
      jsRound ((parsePair c1 3 : ℚ) + ((parsePair c2 3 : ℚ) - parsePair c1 3) * t) * 256 +
      jsRound ((parsePair c1 5 : ℚ) + ((parsePair c2 5 : ℚ) - parsePair c1 5) * t)).toNat =
    (jsRound ((parsePair c1 1 : ℚ) + ((parsePair c2 1 : ℚ) - parsePair c1 1) * t)).toNat * 65536 +
      (jsRound ((parsePair c1 3 : ℚ) + ((parsePair c2 3 : ℚ) - parsePair c1 3) * t)).toNat * 256 +
      (jsRound ((parsePair c1 5 : ℚ) + ((parsePair c2 5 : ℚ) - parsePair c1 5) * t)).toNat
    by omega]
  exact decode_mk_toHex6 _ _ _ (by omega) (by omega) (by omega)

/-- One interpolated channel is monotone in `t` toward the second channel
when the second channel is at least the first. -/
theorem chan_mono (a b : ℕ) (t u : ℚ) (htu : t ≤ u) (hab : a ≤ b) :
    (jsRound ((a : ℚ) + ((b : ℚ) - a) * t)).toNat ≤
      (jsRound ((a : ℚ) + ((b : ℚ) - a) * u)).toNat := by
  apply Int.toNat_le_toNat
  unfold jsRound
  apply Int.floor_le_floor
  have hba : (0 : ℚ) ≤ (b : ℚ) - a := by
    have : ((a : ℚ)) ≤ (b : ℚ) := by exact_mod_cast hab
    linarith
  nlinarith [mul_nonneg hba (sub_nonneg.mpr htu)]

/-- One interpolated channel is antitone in `t` when the second channel is
at most the first. -/
theorem chan_antitone (a b : ℕ) (t u : ℚ) (htu : t ≤ u) (hab : b ≤ a) :
    (jsRound ((a : ℚ) + ((b : ℚ) - a) * u)).toNat ≤
      (jsRound ((a : ℚ) + ((b : ℚ) - a) * t)).toNat := by
  apply Int.toNat_le_toNat
  unfold jsRound
  apply Int.floor_le_floor
  have hba : (b : ℚ) - a ≤ 0 := by
    have : ((b : ℚ)) ≤ (a : ℚ) := by exact_mod_cast hab
    linarith
  nlinarith [mul_nonpos_of_nonpos_of_nonneg hba (sub_nonneg.mpr htu)]

/-- C9 (amended): for valid **lowercase** 6-digit hex colors,
`interpolateColor` returns c1 exactly at t = 0 and c2 exactly at t = 1 (for
other casings it returns the lowercase re-encoding instead), and for
t ≤ u in [0, 1] each decoded channel moves monotonically toward the
corresponding channel of c2: non-decreasing when that channel of c2 is at
least that of c1, non-increasing otherwise. -/
theorem c9_interpolate_color (c1 c2 : String) (h1 : IsLowerHexColor c1)
    (h2 : IsLowerHexColor c2) :
    interpolateColor c1 c2 0 = c1 ∧ interpolateColor c1 c2 1 = c2 ∧
    (∀ t u : ℚ, 0 ≤ t → t ≤ u → u ≤ 1 →
      (((decodeColor c1).1 ≤ (decodeColor c2).1 →
        (decodeColor (interpolateColor c1 c2 t)).1 ≤
          (decodeColor (interpolateColor c1 c2 u)).1) ∧
       ((decodeColor c2).1 ≤ (decodeColor c1).1 →
        (decodeColor (interpolateColor c1 c2 u)).1 ≤
          (decodeColor (interpolateColor c1 c2 t)).1) ∧
       ((decodeColor c1).2.1 ≤ (decodeColor c2).2.1 →
        (decodeColor (interpolateColor c1 c2 t)).2.1 ≤
          (decodeColor (interpolateColor c1 c2 u)).2.1) ∧
       ((decodeColor c2).2.1 ≤ (decodeColor c1).2.1 →
        (decodeColor (interpolateColor c1 c2 u)).2.1 ≤
          (decodeColor (interpolateColor c1 c2 t)).2.1) ∧
       ((decodeColor c1).2.2 ≤ (decodeColor c2).2.2 →
        (decodeColor (interpolateColor c1 c2 t)).2.2 ≤
          (decodeColor (interpolateColor c1 c2 u)).2.2) ∧
       ((decodeColor c2).2.2 ≤ (decodeColor c1).2.2 →
        (decodeColor (interpolateColor c1 c2 u)).2.2 ≤
          (decodeColor (interpolateColor c1 c2 t)).2.2))) := by
  refine ⟨?_, ?_, ?_⟩
  · rw [interpolateColor]
    simp only [mul_zero, add_zero, jsRound_natCast]
    rw [show (((parsePair c1 1 : ℕ) : ℤ) * 65536 + ((parsePair c1 3 : ℕ) : ℤ) * 256 +
        ((parsePair c1 5 : ℕ) : ℤ)).toNat =
      parsePair c1 1 * 65536 + parsePair c1 3 * 256 + parsePair c1 5 by omega]
    exact mk_toHex6_decode c1 h1
  · rw [interpolateColor]
    have key : ∀ a b : ℚ, a + (b - a) * 1 = b := fun a b => by ring
    simp only [key, jsRound_natCast]
    rw [show (((parsePair c2 1 : ℕ) : ℤ) * 65536 + ((parsePair c2 3 : ℕ) : ℤ) * 256 +
        ((parsePair c2 5 : ℕ) : ℤ)).toNat =
      parsePair c2 1 * 65536 + parsePair c2 3 * 256 + parsePair c2 5 by omega]
    exact mk_toHex6_decode c2 h2
  · intro t u ht0 htu hu1
    have ht1 : t ≤ 1 := le_trans htu hu1
    have hu0 : 0 ≤ u := le_trans ht0 htu
    rw [decode_interpolateColor c1 c2 h1 h2 t ht0 ht1,
      decode_interpolateColor c1 c2 h1 h2 u hu0 hu1]
    simp only [decodeColor]
    exact ⟨fun h => chan_mono _ _ t u htu h,
      fun h => chan_antitone _ _ t u htu h,
      fun h => chan_mono _ _ t u htu h,
      fun h => chan_antitone _ _ t u htu h,
      fun h => chan_mono _ _ t u htu h,
      fun h => chan_antitone _ _ t u htu h⟩

/-- C9 counterexample: on the valid (uppercase) hex color `#AB0000`,
`interpolateColor` at t = 0 returns the lowercase re-encoding `#ab0000`,
not the input string: the claimed exact identity at t = 0 fails for
uppercase colors. -/
theorem c9_counterexample :
    interpolateColor ("#AB0000") ("#AB0000") 0 = ("#ab0000") ∧
    interpolateColor ("#AB0000") ("#AB0000") 0 ≠ ("#AB0000") := by
  have e1 : parsePair ("#AB0000") 1 = 171 := by decide
  have e3 : parsePair ("#AB0000") 3 = 0 := by decide
  have e5 : parsePair ("#AB0000") 5 = 0 := by decide
  have key : interpolateColor ("#AB0000") ("#AB0000") 0 = ("#ab0000") := by
    rw [interpolateColor, e1, e3, e5]
    simp only [mul_zero, add_zero, jsRound_natCast]
    rw [show (((171 : ℕ) : ℤ) * 65536 + ((0 : ℕ) : ℤ) * 256 +
      ((0 : ℕ) : ℤ)).toNat = 11206656 by omega]
    decide
  exact ⟨key, by rw [key]; decide⟩

/-- C9 witness: the interpolation theorem applied to the lowercase colors
`#00aaff` and `#7c4dff` at t = 0. -/
theorem c9_witness :
    interpolateColor ("#00aaff") ("#7c4dff") 0 = ("#00aaff") :=
  (c9_interpolate_color ("#00aaff") ("#7c4dff")
    ⟨('0'), ('0'), ('a'), ('a'), ('f'), ('f'), by decide, by decide,
      by decide, by decide, by decide, by decide, by decide⟩
    ⟨('7'), ('c'), ('4'), ('d'), ('f'), ('f'), by decide, by decide,
      by decide, by decide, by decide, by decide, by decide⟩).1
